import Mathlib

/-!
Verification of the viki-trakt-sync matching engine
(`src/viki_trakt_sync/matcher.py`, with the external-client contracts of
`src/viki_trakt_sync/trakt_client.py`, `http_cache.py` and `mdl_client.py`).

The Python code is shallowly embedded as pure Lean functions:

* strings are Lean `String`s (Python `str.lower()` is modelled per ASCII,
  which agrees with Python on every character the regex class `[a-z0-9]`
  can retain);
* Python `float` confidences are modelled as `ℚ` (all confidences in the
  program are decimal literals and differences of decimal literals);
* `datetime` values are represented by their ISO-format string, so
  `datetime.isoformat` is the identity and `datetime.fromisoformat` its
  inverse — exactly the round-trip contract the standard library provides;
* each external HTTP collaborator is an oracle field of an `Env` record;
  calls that the Python code guards with `try/except` are modelled with an
  explicit `NetResult` outcome (`exn` carrying `str(e)`);
* the SQLite match table is a list of rows, `INSERT OR REPLACE` keyed by
  the `viki_id` primary key;
* Python truthiness of optional strings / ints (None and `""` / `0` are
  falsy) is modelled by `pyStrTruthy` / `pyIntTruthy`.
-/

namespace VikiTrakt

/-! ## Normalizer (`matcher.py` lines 391-404, repeated at 537-538 and 631-636)

`_norm s  = re.sub(r"[^a-z0-9]+", " ", (s or "").lower()).strip()`
`_slugify s = re.sub(r"[^a-z0-9]+", "-", (s or "").lower()).strip("-")`
`_norm_no_article s = re.sub(r"^(the|a|an)\s+", "", _norm s)`
-/

/-- Characters retained by the regex class `[a-z0-9]`. -/
def isAlnumL (c : Char) : Bool :=
  ('a' ≤ c && c ≤ 'z') || ('0' ≤ c && c ≤ '9')

/-- Python `str.lower` on the code points the engine can keep (ASCII).
Non-ASCII characters are left unchanged; whether or not Python lowercases
them, they fall outside `[a-z0-9]` and are collapsed by the regex. -/
def pyLowerChars (l : List Char) : List Char :=
  l.map Char.toLower

/-- One pass of `re.sub(r"[^a-z0-9]+", sep, ·)`: each maximal run of
characters outside `[a-z0-9]` becomes a single `sep`.  The boolean state
records whether the previous character was part of such a run. -/
def collapseAux (sep : Char) : Bool → List Char → List Char
  | _, [] => []
  | prevSep, c :: cs =>
    if isAlnumL c then c :: collapseAux sep false cs
    else if prevSep then collapseAux sep true cs
    else sep :: collapseAux sep true cs

/-- `str.strip(sep)`.  After the substitution above the only non-alphanumeric
character left is `sep` itself, so for `_norm` this also agrees with the
whitespace `strip()` Python applies. -/
def stripCh (sep : Char) (l : List Char) : List Char :=
  (((l.dropWhile (· = sep)).reverse.dropWhile (· = sep)).reverse)

/-- `_norm` on a genuine string. -/
def normStr (s : String) : String :=
  String.mk (stripCh ' ' (collapseAux ' ' false (pyLowerChars s.data)))

/-- `_slugify` on a genuine string. -/
def slugStr (s : String) : String :=
  String.mk (stripCh '-' (collapseAux '-' false (pyLowerChars s.data)))

/-- Python truthiness of an optional string: `None` and `""` are falsy. -/
def pyStrTruthy : Option String → Bool
  | none => false
  | some s => !s.isEmpty

/-- Python `a or b` for optional strings. -/
def pyOrStrO (a b : Option String) : Option String :=
  if pyStrTruthy a then a else b

/-- `_norm` as the matcher actually applies it: the argument may be `None`
(`trakt_title`, TVDB `name` fields …); `(s or "")` maps falsy input to `""`. -/
def pyNorm (s : Option String) : String :=
  normStr (s.getD "")

/-- `_slugify` with the same `(s or "")` guard. -/
def pySlug (s : Option String) : String :=
  slugStr (s.getD "")

/-- Python `\s` on the ASCII range (the characters `re.IGNORECASE` article
stripping can consume). -/
def isPySpace (c : Char) : Bool :=
  c = ' ' || c = '\t' || c = '\n' || c = '\r' || c = '\x0b' || c = '\x0c'

/-- Whether a list starts with at least one whitespace character (the `\s+`
part of the article regex). -/
def headIsSpace : List Char → Bool
  | [] => false
  | c :: _ => isPySpace c

/-- `re.sub(r"^(the|a|an)\s+", "", ·, flags=re.IGNORECASE)` on a raw title
(line 404).  The alternation tries `the`, then `a`, then `an`, each of which
must be followed by at least one whitespace character; on failure the string
is unchanged.  Matching is case-insensitive but the remainder keeps its case. -/
def stripArticleRaw (l : List Char) : List Char :=
  let low := l.map Char.toLower
  if low.take 3 = ['t', 'h', 'e'] && headIsSpace (l.drop 3) then
    (l.drop 3).dropWhile isPySpace
  else if low.take 1 = ['a'] && headIsSpace (l.drop 1) then
    (l.drop 1).dropWhile isPySpace
  else if low.take 2 = ['a', 'n'] && headIsSpace (l.drop 2) then
    (l.drop 2).dropWhile isPySpace
  else l

/-- `_norm_no_article` (lines 394-396): normalize, then drop one leading
article.  The inner regex is the case-sensitive instance of the raw one —
on an already-normalized string the two coincide. -/
def normNoArticleStr (s : String) : String :=
  String.mk (stripArticleRaw (normStr s).data)

/-- `_norm_no_article` applied to a possibly-`None` value. -/
def pyNormNoArticle (s : Option String) : String :=
  normNoArticleStr (s.getD "")

/-! ### Specification-side formulation of the normalizers (for claim C9)

The spec reads: "lowercase, collapse any run of non-alphanumeric characters
to a single space, trim".  An equivalent description: keep the maximal
alphanumeric runs of the lowercased string and join them with single
separators.  We state that formulation independently and prove the source
functions equal to it. -/

/-- Maximal `[a-z0-9]` runs of a character list, left to right.  `cur` holds
the (reversed) run currently being read. -/
def tokensGo (cur : List Char) : List Char → List (List Char)
  | [] => if cur.isEmpty then [] else [cur.reverse]
  | c :: cs =>
    if isAlnumL c then tokensGo (c :: cur) cs
    else if cur.isEmpty then tokensGo [] cs
    else cur.reverse :: tokensGo [] cs

/-- Join token runs with a single separator character. -/
def joinSep (sep : Char) : List (List Char) → List Char
  | [] => []
  | [t] => t
  | t :: ts => t ++ sep :: joinSep sep ts

/-- The spec's wording of `normalize`: alphanumeric runs of the lowercased
string, joined by single spaces. -/
def normalizeSpec (s : String) : String :=
  String.mk (joinSep ' ' (tokensGo [] (pyLowerChars s.data)))

/-- The spec's wording of `slugify`, with hyphens. -/
def slugifySpec (s : String) : String :=
  String.mk (joinSep '-' (tokensGo [] (pyLowerChars s.data)))

/-- Right trim only. -/
def stripRight (sep : Char) (l : List Char) : List Char :=
  ((l.reverse.dropWhile (· = sep)).reverse)

theorem stripRight_append (sep : Char) (a b : List Char) :
    stripRight sep (a ++ b) =
      if stripRight sep b = [] then stripRight sep a else a ++ stripRight sep b := by
  unfold stripRight
  rw [List.reverse_append, List.dropWhile_append]
  by_cases h : (b.reverse.dropWhile (· = sep)) = []
  · simp [h]
  · simp [h, List.isEmpty_iff, List.reverse_eq_nil_iff]

theorem stripRight_of_alnum_last (sep : Char) (hsep : isAlnumL sep = false)
    (cur : List Char) (hne : cur ≠ []) (hal : ∀ c ∈ cur, isAlnumL c = true) :
    stripRight sep cur.reverse = cur.reverse := by
  unfold stripRight
  rw [List.reverse_reverse]
  cases cur with
  | nil => simp at hne
  | cons c cs =>
    have hc : isAlnumL c = true := hal c (by simp)
    have : ¬ (c = sep) := by
      intro h; rw [h] at hc; rw [hc] at hsep; cases hsep
    simp [List.dropWhile, this]

/-- Tokens are non-empty runs, so the joined form is empty only when there
are no tokens. -/
theorem joinSep_tokensGo_ne_nil (sep : Char) (cur : List Char) (l : List Char)
    (hcur : cur ≠ []) : joinSep sep (tokensGo cur l) ≠ [] := by
  induction l generalizing cur with
  | nil =>
    obtain ⟨d, ds, rfl⟩ := List.exists_cons_of_ne_nil hcur
    simp [tokensGo, joinSep]
  | cons c cs ih =>
    obtain ⟨d, ds, rfl⟩ := List.exists_cons_of_ne_nil hcur
    simp only [tokensGo]
    by_cases hA : isAlnumL c = true
    · rw [if_pos hA]; exact ih (c :: d :: ds) (by simp)
    · rw [if_neg hA]
      simp only [List.isEmpty_cons, if_neg (by simp : ¬ (false = true))]
      cases htl : tokensGo ([] : List Char) cs with
      | nil => simp [joinSep]
      | cons t ts => simp [joinSep]

theorem tokensGo_mem_ne_nil (t : List Char) :
    ∀ (l cur : List Char), t ∈ tokensGo cur l → t ≠ [] := by
  intro l
  induction l with
  | nil =>
    intro cur ht
    by_cases h : cur.isEmpty = true
    · simp [tokensGo, h] at ht
    · simp only [tokensGo, if_neg h, List.mem_singleton] at ht
      subst ht
      simp only [ne_eq, List.reverse_eq_nil_iff]
      exact fun hc => h (by simp [hc])
  | cons c cs ih =>
    intro cur ht
    by_cases hA : isAlnumL c = true
    · simp only [tokensGo, if_pos hA] at ht
      exact ih _ ht
    · by_cases h : cur.isEmpty = true
      · simp only [tokensGo, if_neg hA, if_pos h] at ht
        exact ih _ ht
      · simp only [tokensGo, if_neg hA, if_neg h, List.mem_cons] at ht
        rcases ht with rfl | ht
        · simp only [ne_eq, List.reverse_eq_nil_iff]
          exact fun hc => h (by simp [hc])
        · exact ih _ ht

theorem joinSep_ne_nil (sep : Char) :
    ∀ ts : List (List Char), ts ≠ [] → (∀ t ∈ ts, t ≠ []) → joinSep sep ts ≠ [] := by
  intro ts
  match ts with
  | [] => intro h; exact absurd rfl h
  | [t] => intro _ hall; simpa [joinSep] using hall t (by simp)
  | t :: t2 :: rest => intro _ _; simp [joinSep]

theorem collapseAux_true_head (sep : Char) :
    ∀ l : List Char, collapseAux sep true l = [] ∨
      ∃ d ds, collapseAux sep true l = d :: ds ∧ isAlnumL d = true := by
  intro l
  induction l with
  | nil => left; rfl
  | cons c cs ih =>
    by_cases hA : isAlnumL c = true
    · right; exact ⟨c, collapseAux sep false cs, by simp [collapseAux, hA], hA⟩
    · simpa [collapseAux, hA] using ih

/-- Joint characterization of the substitute-then-trim pipeline against the
token/join formulation, for both automaton states. -/
theorem collapse_joint (sep : Char) (hsep : isAlnumL sep = false) :
    ∀ l : List Char,
      stripRight sep (collapseAux sep true l) = joinSep sep (tokensGo [] l) ∧
      ∀ cur : List Char, cur ≠ [] → (∀ c ∈ cur, isAlnumL c = true) →
        stripRight sep (cur.reverse ++ collapseAux sep false l) =
          joinSep sep (tokensGo cur l) := by
  intro l
  induction l with
  | nil =>
    constructor
    · rfl
    · intro cur hne hal
      simp only [collapseAux, List.append_nil]
      rw [stripRight_of_alnum_last sep hsep cur hne hal]
      obtain ⟨d, ds, rfl⟩ := List.exists_cons_of_ne_nil hne
      simp [tokensGo, joinSep]
  | cons c cs ih =>
    constructor
    · by_cases hA : isAlnumL c = true
      · have h1 : collapseAux sep true (c :: cs) = c :: collapseAux sep false cs := by
          simp [collapseAux, hA]
        have h2 : tokensGo ([] : List Char) (c :: cs) = tokensGo [c] cs := by
          simp [tokensGo, hA]
        rw [h1, h2]
        have := ih.2 [c] (by simp) (by simpa using hA)
        simpa using this
      · have h1 : collapseAux sep true (c :: cs) = collapseAux sep true cs := by
          simp [collapseAux, hA]
        have h2 : tokensGo ([] : List Char) (c :: cs) = tokensGo [] cs := by
          simp [tokensGo, hA]
        rw [h1, h2, ih.1]
    · intro cur hne hal
      by_cases hA : isAlnumL c = true
      · have h1 : collapseAux sep false (c :: cs) = c :: collapseAux sep false cs := by
          simp [collapseAux, hA]
        have h2 : tokensGo cur (c :: cs) = tokensGo (c :: cur) cs := by
          simp [tokensGo, hA]
        have hcat : cur.reverse ++ c :: collapseAux sep false cs =
            (c :: cur).reverse ++ collapseAux sep false cs := by
          simp
        rw [h1, h2, hcat]
        exact ih.2 (c :: cur) (by simp)
          (by intro x hx; rcases List.mem_cons.mp hx with rfl | hx
              · exact hA
              · exact hal x hx)
      · have h1 : collapseAux sep false (c :: cs) = sep :: collapseAux sep true cs := by
          simp [collapseAux, hA]
        have h2 : tokensGo cur (c :: cs) = cur.reverse :: tokensGo [] cs := by
          have : cur.isEmpty = false := by
            cases cur with
            | nil => exact absurd rfl hne
            | cons d ds => rfl
          simp [tokensGo, hA, this]
        rw [h1, h2]
        have hsplit := stripRight_append sep cur.reverse (sep :: collapseAux sep true cs)
        have hsep1 : stripRight sep (sep :: collapseAux sep true cs) =
            if stripRight sep (collapseAux sep true cs) = [] then []
            else sep :: stripRight sep (collapseAux sep true cs) := by
          have := stripRight_append sep [sep] (collapseAux sep true cs)
          simp only [List.singleton_append] at this
          rw [this]
          have hss : stripRight sep [sep] = [] := by simp [stripRight, List.dropWhile]
          split <;> simp [hss]
        by_cases hJ : joinSep sep (tokensGo ([] : List Char) cs) = []
        · have htok : tokensGo ([] : List Char) cs = [] := by
            by_contra hts
            exact joinSep_ne_nil sep _ hts (fun t ht => tokensGo_mem_ne_nil t cs [] ht) hJ
          have hX : stripRight sep (collapseAux sep true cs) = [] := by
            rw [ih.1, hJ]
          rw [hsplit, hsep1, if_pos hX]
          simp only [if_pos rfl]
          rw [stripRight_of_alnum_last sep hsep cur hne hal, htok]
          simp [joinSep]
        · have hX : stripRight sep (collapseAux sep true cs) ≠ [] := by
            rw [ih.1]; exact hJ
          obtain ⟨t, ts, htok⟩ : ∃ t ts, tokensGo ([] : List Char) cs = t :: ts := by
            cases htk : tokensGo ([] : List Char) cs with
            | nil => rw [htk] at hJ; simp [joinSep] at hJ
            | cons t ts => exact ⟨t, ts, rfl⟩
          rw [hsplit, hsep1, if_neg hX, if_neg (by simp)]
          rw [ih.1, htok]
          simp [joinSep]

/-- The substituted-and-trimmed form equals the tokens joined by single
separators, for any separator outside `[a-z0-9]`. -/
theorem collapse_strip_eq_join (sep : Char) (hsep : isAlnumL sep = false)
    (l : List Char) :
    stripCh sep (collapseAux sep false l) = joinSep sep (tokensGo [] l) := by
  have hch : ∀ x : List Char, stripCh sep x = stripRight sep (x.dropWhile (· = sep)) := by
    intro x; rfl
  cases l with
  | nil => rfl
  | cons c cs =>
    by_cases hA : isAlnumL c = true
    · have h1 : collapseAux sep false (c :: cs) = c :: collapseAux sep false cs := by
        simp [collapseAux, hA]
      have hcne : ¬ (c = sep) := by
        intro h; rw [h] at hA; rw [hA] at hsep; cases hsep
      rw [h1, hch]
      have hdw : (c :: collapseAux sep false cs).dropWhile (· = sep) =
          c :: collapseAux sep false cs := by
        simp [List.dropWhile, hcne]
      rw [hdw]
      have h2 : tokensGo ([] : List Char) (c :: cs) = tokensGo [c] cs := by
        simp [tokensGo, hA]
      rw [h2]
      have := (collapse_joint sep hsep cs).2 [c] (by simp) (by simpa using hA)
      simpa using this
    · have h1 : collapseAux sep false (c :: cs) = sep :: collapseAux sep true cs := by
        simp [collapseAux, hA]
      have h2 : tokensGo ([] : List Char) (c :: cs) = tokensGo [] cs := by
        simp [tokensGo, hA]
      rw [h1, h2, hch]
      have hdw : (sep :: collapseAux sep true cs).dropWhile (· = sep) =
          (collapseAux sep true cs).dropWhile (· = sep) := by
        simp [List.dropWhile]
      rw [hdw]
      have hhead := collapseAux_true_head sep cs
      rcases hhead with hnil | ⟨d, ds, hds, hd⟩
      · rw [hnil]
        have := (collapse_joint sep hsep cs).1
        rw [hnil] at this
        simpa using this
      · have hdne : ¬ (d = sep) := by
          intro h; rw [h] at hd; rw [hd] at hsep; cases hsep
        rw [hds]
        have hdw2 : (d :: ds).dropWhile (· = sep) = d :: ds := by
          simp [List.dropWhile, hdne]
        rw [hdw2]
        have := (collapse_joint sep hsep cs).1
        rw [hds] at this
        exact this

/-! ## Data model

`MatchResult` (matcher.py lines 30-54) and the `viki_trakt_matches` table
(lines 74-94).  `datetime` values are carried as their ISO-format strings,
making `isoformat` the identity; `matched_at = None` is `none`. -/

/-- Python truthiness of an optional integer: `None` and `0` are falsy. -/
def pyIntTruthy : Option Int → Bool
  | none => false
  | some n => n ≠ 0

/-- Python `a or b` for optional integers. -/
def pyOrIntO (a b : Option Int) : Option Int :=
  if pyIntTruthy a then a else b

/-- `MatchResult` dataclass.  `viki_id` is `Optional` here because the tier
helpers recompute it from the raw show dict; `match()` itself only builds
results with a non-empty id. -/
structure MatchResult where
  viki_id : Option String
  viki_title : String
  trakt_id : Option Int := none
  trakt_slug : Option String := none
  trakt_title : Option String := none
  match_confidence : ℚ := 0
  match_method : Option String := none
  tvdb_id : Option Int := none
  matched_at : Option String := none
  notes : String := ""
deriving DecidableEq

/-- `MatchResult.is_matched` (lines 45-47). -/
def MatchResult.is_matched (r : MatchResult) : Bool :=
  r.trakt_id.isSome && decide ((0 : ℚ) < r.match_confidence)

/-- One row of `viki_trakt_matches`, in schema column order. -/
structure Row where
  viki_id : Option String
  viki_title : String
  trakt_id : Option Int
  trakt_slug : Option String
  trakt_title : Option String
  tvdb_id : Option Int
  confidence : ℚ
  method : Option String
  matched_at : Option String
  notes : String
  updated_at : String
deriving DecidableEq

/-- The match table. -/
abbrev Cache := List Row

/-- `SELECT * FROM viki_trakt_matches WHERE viki_id = ?` — an SQL `=` never
matches a NULL key. -/
def dbGetRow (db : Cache) (k : String) : Option Row :=
  db.find? (fun r => r.viki_id = some k)

/-- Row deserialization in `MatchDB.get` (lines 112-143).  In the ISO-string
model `datetime.fromisoformat` is the identity, and the `if matched_at:`
guard keeps `""` unchanged, so the field transfers as is. -/
def rowToResult (r : Row) : MatchResult :=
  { viki_id := r.viki_id
    viki_title := r.viki_title
    trakt_id := r.trakt_id
    trakt_slug := r.trakt_slug
    trakt_title := r.trakt_title
    match_confidence := r.confidence
    match_method := r.method
    tvdb_id := r.tvdb_id
    matched_at := r.matched_at
    notes := r.notes }

/-- Row serialization in `MatchDB.save` (lines 145-176); `now` is the
`updated_at` timestamp taken at save time, and `matched_at.isoformat()`
is the identity in the ISO-string model (`None` stays NULL). -/
def resultToRow (res : MatchResult) (now : String) : Row :=
  { viki_id := res.viki_id
    viki_title := res.viki_title
    trakt_id := res.trakt_id
    trakt_slug := res.trakt_slug
    trakt_title := res.trakt_title
    tvdb_id := res.tvdb_id
    confidence := res.match_confidence
    method := res.match_method
    matched_at := res.matched_at
    notes := res.notes
    updated_at := now }

/-- `INSERT OR REPLACE` on the `viki_id` primary key.  SQLite treats NULL
keys as pairwise distinct, so only a non-NULL key replaces its old row. -/
def dbSave (db : Cache) (res : MatchResult) (now : String) : Cache :=
  resultToRow res now ::
    db.filter (fun r => !(r.viki_id = res.viki_id && res.viki_id.isSome))

/-- `MatchDB.get` as the engine consumes it: deserialized. -/
def dbGetResult (db : Cache) (k : String) : Option MatchResult :=
  (dbGetRow db k).map rowToResult

/-! ## External collaborators

Response shapes observed by the matcher.  All `TraktClient` methods catch
their own exceptions and collapse failures to `[]` / `None`
(`trakt_client.py` lines 102-121, 136-169, 180-213), so their oracles are
total functions.  The raw TVDB HTTP calls made inside the matcher are
guarded by `try/except requests.RequestException`; those oracles return a
`NetResult`, where `exn msg` stands for a raised `RequestException` with
`str(e) = msg`. -/

/-- Outcome of a raw HTTP call: a response, or a `requests.RequestException`
carrying its message. -/
inductive NetResult (α : Type) where
  | ok (val : α)
  | exn (msg : String)
deriving DecidableEq

/-- The `show` object inside a Trakt search item, and the dict returned by
the by-slug / by-TVDB lookups: a title plus `ids.trakt` / `ids.slug`. -/
structure ShowData where
  title : Option String := none
  idTrakt : Option Int := none
  idSlug : Option String := none
deriving DecidableEq

/-- One element of a Trakt `/search` response.  `show_` models
`item.get("show", {})` (`show` is reserved in Lean); a missing `show` key
behaves as the all-`None` record. -/
structure SearchItem where
  show_ : ShowData := {}
deriving DecidableEq

/-- The `TraktClient` wrapper: `search_shows`, `get_show_by_slug`,
`get_show_by_tvdb`.  Present iff `TRAKT_CLIENT_ID` was configured
(`self.trakt` / `self.trakt_available`, matcher.py lines 250-257). -/
structure TraktO where
  searchShows : String → List SearchItem
  getShowBySlug : String → Option ShowData
  getShowByTvdb : Int → Option ShowData

/-- One TVDB `/search` result item (tier 3 and 3b). -/
structure TvdbItem where
  tvdb_id : Option Int := none
  id : Option Int := none
  name : Option String := none
  seriesName : Option String := none
  title : Option String := none
  aliases : List String := []
deriving DecidableEq

/-- One element of the alias list of a TVDB series detail record. -/
structure TvdbAliasObj where
  language : Option String := none
  name : Option String := none
deriving DecidableEq

/-- The `data` object of `GET /v4/series/{id}` (tier 3b). -/
structure TvdbDetail where
  name : Option String := none
  aliases : List TvdbAliasObj := []
deriving DecidableEq

/-- The dict returned by `MdlClient.search_alias` (mdl_client.py), `None`
when the scrape found nothing or raised. -/
structure MdlData where
  english_aliases : List String := []
  viki_id : Option String := none
deriving DecidableEq

/-- The external world of one `match()` call: configured clients, environment
variables, HTTP responses and the wall clock, all assumed stable for the
duration of the call. -/
structure Env where
  /-- `self.trakt` (`None` when `TRAKT_CLIENT_ID` is missing). -/
  trakt : Option TraktO
  /-- `os.getenv("TVDB_API_KEY")`. -/
  tvdbApiKey : Option String := none
  /-- `POST /v4/login`: HTTP status and `data.token`. -/
  tvdbLogin : NetResult (Nat × Option String) := .exn "login unreachable"
  /-- `GET /v4/search?query=·&type=series`: HTTP status and `data`. -/
  tvdbSearch : String → NetResult (Nat × List TvdbItem) := fun _ => .exn "search unreachable"
  /-- `GET /v4/series/{id}`: HTTP status and `data`. -/
  tvdbDetail : Int → NetResult (Nat × TvdbDetail) := fun _ => .exn "detail unreachable"
  /-- `MdlClient().search_alias(·)` (`None` also covers its own exceptions). -/
  mdlSearchAlias : String → Option MdlData := fun _ => none
  /-- `datetime.now(timezone.utc)` in ISO format. -/
  now : String := "2026-01-01T00:00:00+00:00"

/-- The show dict handed to `match()`: values of the `"id"`, `"viki_id"` and
`"titles"` keys (`None` both for a missing key and a `None` value, which
`dict.get` cannot distinguish). -/
structure VikiShow where
  id : Option String := none
  viki_id : Option String := none
  titles : List (String × String) := []
deriving DecidableEq

/-- `viki_show.get("id") or viki_show.get("viki_id")` (lines 301, 376, 503,
606, 755). -/
def pyGetId (s : VikiShow) : Option String :=
  pyOrStrO s.id s.viki_id

/-! ## Tier 2: `_tier_exact_trakt` (matcher.py lines 364-489) -/

/-- The one-pass scan over search results (lines 409-420): stop at the first
exact normalized-title match, remembering the first article-stripped match.
Returns (exact hit, article hit). -/
def scanOne (normQ normQwo : String) :
    List SearchItem → Option SearchItem → Option SearchItem × Option SearchItem
  | [], art => (none, art)
  | it :: rest, art =>
    let title := (it.show_.title).getD ""
    if normStr title = normQ then (some it, art)
    else
      let art' := if art.isNone && decide (normNoArticleStr title = normQwo)
        then some it else art
      scanOne normQ normQwo rest art'

/-- Candidate selection of lines 406-440: the one-pass scan (exact
normalized match with an article-dropped backup), then the slug
starts-with pass, then the article-dropped slug starts-with pass (only
when dropping the article changed the slug).  The boolean is
`matched_via_article`. -/
def chooseExact (normQ normQwo slugQ slugQwo : String)
    (results : List SearchItem) : Option SearchItem × Bool :=
  -- 1) one-pass scan: exact normalized match, else article-dropped match
  let scanned := scanOne normQ normQwo results none
  let stage1 : Option SearchItem × Bool :=
    match scanned.1 with
    | some it => (some it, false)
    | none =>
      match scanned.2 with
      | some it => (some it, true)
      | none => (none, false)
  -- 2) slug starts-with match (year-suffixed slugs)
  let stage2 : Option SearchItem × Bool :=
    if stage1.1.isSome then stage1
    else
      match results.find? (fun it => ((it.show_.idSlug).getD "").startsWith slugQ) with
      | some it => (some it, stage1.2)
      | none => (none, stage1.2)
  -- 2b) slug starts-with after dropping a leading article
  if stage2.1.isSome then stage2
  else if slugQwo ≠ slugQ then
    match results.find? (fun it => ((it.show_.idSlug).getD "").startsWith slugQwo) with
    | some it => (some it, true)
    | none => (none, stage2.2)
  else stage2

/-- Build the tier's `MatchResult` from the chosen candidate
(lines 461-489). -/
def finishExact (env : Env) (vikiId : Option String) (vikiTitle : String)
    (normQ normQwo slugQ slugQwo : String) (it : SearchItem) (viaArticle : Bool) :
    MatchResult :=
  let sd := it.show_
  let confMethod : ℚ × String :=
    if pyNorm sd.title = normQ || (sd.idSlug.getD "").startsWith slugQ then
      (1, "exact_trakt")
    else if viaArticle || decide (pyNormNoArticle sd.title = normQwo)
        || (sd.idSlug.getD "").startsWith slugQwo then
      (0.9, "exact_trakt_article")
    else
      (0.8, "exact_trakt_first")
  { viki_id := vikiId
    viki_title := vikiTitle
    trakt_id := sd.idTrakt
    trakt_slug := sd.idSlug
    trakt_title := sd.title
    match_confidence := confMethod.1
    match_method := some confMethod.2
    matched_at := some env.now }

/-- `_tier_exact_trakt`. -/
def tierExactTrakt (env : Env) (vikiShow : VikiShow) (vikiTitle : String) :
    MatchResult :=
  let vikiId := pyGetId vikiShow
  match env.trakt with
  | none => { viki_id := vikiId, viki_title := vikiTitle, notes := "Trakt not configured" }
  | some tc =>
    let results := tc.searchShows vikiTitle
    if results.isEmpty then { viki_id := vikiId, viki_title := vikiTitle }
    else
      let normQ := normStr vikiTitle
      let normQwo := normNoArticleStr vikiTitle
      let slugQ := slugStr vikiTitle
      let slugQwo := slugStr (String.mk (stripArticleRaw vikiTitle.data))
      let stage3 := chooseExact normQ normQwo slugQ slugQwo results
      match stage3.1 with
      | some it => finishExact env vikiId vikiTitle normQ normQwo slugQ slugQwo it stage3.2
      | none =>
        -- 3) direct slug lookup probes, first truthy response wins
        let probes := [slugQ, slugQ ++ "-2025", slugQ ++ "-2024", slugQ ++ "-2026"]
        match probes.findSome? (fun p => tc.getShowBySlug p) with
        | some data =>
          { viki_id := vikiId
            viki_title := vikiTitle
            trakt_id := data.idTrakt
            trakt_slug := data.idSlug
            trakt_title := data.title
            match_confidence := 1
            match_method := some "slug_lookup"
            matched_at := some env.now }
        | none =>
          -- 4) last resort: first search result
          finishExact env vikiId vikiTitle normQ normQwo slugQ slugQwo
            (results.head?.getD {}) false

/-! ## Tier 3: `_tier_tvdb` (matcher.py lines 493-590) -/

/-- `r.get("name") or r.get("seriesName") or r.get("title")` (line 545). -/
def tvdbItemName (r : TvdbItem) : Option String :=
  pyOrStrO (pyOrStrO r.name r.seriesName) r.title

/-- Candidate choice of tier 3 (lines 543-556): first result whose
normalized name, or any of whose aliases, equals the normalized query. -/
def chooseTvdb (normQ : String) (results : List TvdbItem) : Option TvdbItem :=
  results.find? (fun r =>
    decide (pyNorm (tvdbItemName r) = normQ)
      || r.aliases.any (fun a => decide (pyNorm (some a) = normQ)))

/-- `int(tvdb_id) if ... str(tvdb_id).isdigit() else None` (lines 582, 730):
`str(n).isdigit()` holds for an `int` exactly when it is non-negative. -/
def tvdbIdDigits (n : Int) : Option Int :=
  if 0 ≤ n then some n else none

/-- `_tier_tvdb`. -/
def tierTvdb (env : Env) (vikiShow : VikiShow) (vikiTitle : String) :
    MatchResult :=
  let vikiId := pyGetId vikiShow
  let base : MatchResult := { viki_id := vikiId, viki_title := vikiTitle }
  if !pyStrTruthy env.tvdbApiKey then
    { base with notes := "Missing TVDB_API_KEY" }
  else
    match env.tvdbLogin with
    | .exn msg => { base with notes := msg }
    | .ok (status, token) =>
      if status ≠ 200 then { base with notes := "TVDB login failed" }
      else if !pyStrTruthy token then { base with notes := "TVDB token missing" }
      else
        match env.tvdbSearch vikiTitle with
        | .exn msg => { base with notes := msg }
        | .ok (st, results) =>
          if st ≠ 200 then { base with notes := "TVDB search failed" }
          else if results.isEmpty then { base with notes := "TVDB no results" }
          else
            let normQ := normStr vikiTitle
            let chosen := (chooseTvdb normQ results).getD (results.head?.getD {})
            let tvdbIdO := pyOrIntO chosen.tvdb_id chosen.id
            if !pyIntTruthy tvdbIdO then { base with notes := "TVDB id not found" }
            else
              let tvdbId := tvdbIdO.getD 0
              match env.trakt with
              | none => { base with notes := "Trakt not configured" }
              | some tc =>
                match tc.getShowByTvdb tvdbId with
                | none => { base with notes := "Trakt no result for TVDB id" }
                | some tShow =>
                  if !pyIntTruthy tShow.idTrakt then
                    { base with notes := "Trakt show missing ids" }
                  else
                    { viki_id := vikiId
                      viki_title := vikiTitle
                      trakt_id := tShow.idTrakt
                      trakt_slug := tShow.idSlug
                      trakt_title := tShow.title
                      tvdb_id := tvdbIdDigits tvdbId
                      match_confidence := 0.95
                      match_method := some "tvdb"
                      matched_at := some env.now }

/-! ## Tier 3b: `_tier_tvdb_aliases` (matcher.py lines 592-738) -/

/-- The `best_match` tuple `(tvdb_id, matched_name, confidence, method)`. -/
abbrev BestMatch := Int × Option String × ℚ × String

/-- The inner alias loop (lines 683-694).  `alias_name` is truthy exactly
when the entry is English-tagged and carries a non-empty name.  An exact
alias match breaks out with 0.92; an article match only upgrades a best
confidence below 0.82. -/
def aliasScanAliases (tid : Int) (normQ normQwo : String) :
    List TvdbAliasObj → Option BestMatch → ℚ → Option BestMatch × ℚ
  | [], bm, bc => (bm, bc)
  | a :: rest, bm, bc =>
    if (a.language = some "eng") && pyStrTruthy a.name then
      let an := a.name.getD ""
      if normStr an = normQ then
        (some (tid, a.name, 0.92, "tvdb_alias_match"), bc)
      else if normNoArticleStr an = normQwo && decide (bc < 0.82) then
        aliasScanAliases tid normQ normQwo rest
          (some (tid, a.name, 0.82, "tvdb_alias_match_article")) 0.82
      else aliasScanAliases tid normQ normQwo rest bm bc
    else aliasScanAliases tid normQ normQwo rest bm bc

/-- Per-item handling of a (non-exact-primary) detail record: the
primary-name article upgrade (lines 677-681) followed by the alias loop
(lines 683-694). -/
def aliasItemStep (tid : Int) (normQ normQwo : String) (dd : TvdbDetail)
    (bm : Option BestMatch) (bc : ℚ) : Option BestMatch × ℚ :=
  let step1 : Option BestMatch × ℚ :=
    if pyStrTruthy dd.name && decide (pyNormNoArticle dd.name = normQwo)
        && decide (bc < 0.85) then
      (some (tid, dd.name, 0.85, "tvdb_alias_primary_article"), 0.85)
    else (bm, bc)
  aliasScanAliases tid normQ normQwo dd.aliases step1.1 step1.2

/-- The outer loop over the top-10 search results (lines 654-697), threading
`best_match` and `best_confidence`.  The detail fetch sits in its own
`try/except Exception: continue`, so both a raised call and a non-200
response skip the item.  An exact primary-name hit breaks out at 0.95; the
end-of-iteration check breaks once the best confidence reaches 0.92. -/
def aliasScanItems (env : Env) (normQ normQwo : String) :
    List TvdbItem → Option BestMatch → ℚ → Option BestMatch
  | [], bm, _ => bm
  | r :: rest, bm, bc =>
    let tvdbIdO := pyOrIntO r.tvdb_id r.id
    if !pyIntTruthy tvdbIdO then aliasScanItems env normQ normQwo rest bm bc
    else
      let tid := tvdbIdO.getD 0
      match env.tvdbDetail tid with
      | .exn _ => aliasScanItems env normQ normQwo rest bm bc
      | .ok (st, dd) =>
        if st ≠ 200 then aliasScanItems env normQ normQwo rest bm bc
        else
          if pyStrTruthy dd.name && decide (pyNorm dd.name = normQ) then
            some (tid, dd.name, 0.95, "tvdb_alias_primary")
          else
            let step2 := aliasItemStep tid normQ normQwo dd bm bc
            match step2.1 with
            | some best =>
              if decide ((0.92 : ℚ) ≤ best.2.2.1) then some best
              else aliasScanItems env normQ normQwo rest step2.1 step2.2
            | none => aliasScanItems env normQ normQwo rest step2.1 step2.2

/-- `_tier_tvdb_aliases`.  Every failure exit returns the bare
(unmatched, note-less) result. -/
def tierTvdbAliases (env : Env) (vikiShow : VikiShow) (vikiTitle : String) :
    MatchResult :=
  let vikiId := pyGetId vikiShow
  let base : MatchResult := { viki_id := vikiId, viki_title := vikiTitle }
  if !pyStrTruthy env.tvdbApiKey then base
  else
    match env.tvdbLogin with
    | .exn _ => base
    | .ok (status, token) =>
      if status ≠ 200 then base
      else if !pyStrTruthy token then base
      else
        match env.tvdbSearch vikiTitle with
        | .exn _ => base
        | .ok (st, results) =>
          if st ≠ 200 then base
          else if results.isEmpty then base
          else
            let normQ := normStr vikiTitle
            let normQwo := normNoArticleStr vikiTitle
            match aliasScanItems env normQ normQwo (results.take 10) none 0 with
            | none => base
            | some best =>
              let tid := best.1
              let conf := best.2.2.1
              let meth := best.2.2.2
              match env.trakt with
              | none => base
              | some tc =>
                match tc.getShowByTvdb tid with
                | none => base
                | some tShow =>
                  if !pyIntTruthy tShow.idTrakt then base
                  else
                    { viki_id := vikiId
                      viki_title := vikiTitle
                      trakt_id := tShow.idTrakt
                      trakt_slug := tShow.idSlug
                      trakt_title := tShow.title
                      tvdb_id := tvdbIdDigits tid
                      match_confidence := conf
                      match_method := some meth
                      matched_at := some env.now }

/-! ## Tier 4: `_tier_mdl` (matcher.py lines 740-855)

The alias loop (lines 788-843) opens with
`tvdb.session.get(f"{tvdb.base_url}/search", ..., headers=tvdb.headers, ...)`,
but the object returned by `get_tvdb_session()` is the `CachedSession`
wrapper of `http_cache.py`, which defines neither a `base_url` nor a
`headers` attribute.  The very first iteration therefore raises
`AttributeError`, which the enclosing `except Exception` (line 849) turns
into the bare unmatched result.  Consequently every exit of this tier —
no MDL data, no aliases, missing API key, or the loop itself — returns the
same bare result. -/

/-- `_tier_mdl`. -/
def tierMdl (env : Env) (vikiShow : VikiShow) (vikiTitle : String) :
    MatchResult :=
  let vikiId := pyGetId vikiShow
  let base : MatchResult := { viki_id := vikiId, viki_title := vikiTitle }
  match env.mdlSearchAlias vikiTitle with
  | none => base
  | some mdlData =>
    if mdlData.english_aliases.isEmpty then base
    else if !pyStrTruthy env.tvdbApiKey then base
    else
      -- first loop iteration: `tvdb.base_url` → AttributeError → caught at
      -- line 849 → bare unmatched result; no alias is ever tried
      base

/-! ## Orchestrator: `ShowMatcher.match` (matcher.py lines 282-362)

Beyond the returned `MatchResult` and the updated table, the embedding
records the `db.get` keys read, the `db.save` calls issued and the tier
helpers invoked, in order — the observable side effects of one call. -/

/-- Title selection (lines 306-307):
`titles.get("en") or next(iter(titles.values()), f"Unknown ({viki_id})")`. -/
def vikiTitleOf (s : VikiShow) : String :=
  let vikiId := (pyGetId s).getD ""
  let en := (s.titles.find? (fun p => p.1 == "en")).map (·.2)
  if pyStrTruthy en then en.getD ""
  else ((s.titles.head?.map (·.2)).getD ("Unknown (" ++ vikiId ++ ")"))

/-- Acceptance gate after tier 2 (line 323): matched and confidence
strictly above 0.85. -/
def acceptsA (r : MatchResult) : Bool :=
  r.is_matched && decide ((0.85 : ℚ) < r.match_confidence)

/-- Acceptance gate after tier 3 (line 329): strictly above 0.7. -/
def acceptsB (r : MatchResult) : Bool :=
  r.is_matched && decide ((0.7 : ℚ) < r.match_confidence)

/-- Acceptance gate after tier 3b (line 335): strictly above 0.65. -/
def acceptsB2 (r : MatchResult) : Bool :=
  r.is_matched && decide ((0.65 : ℚ) < r.match_confidence)

/-- Acceptance gate after tier 4 (line 342): strictly above 0.6. -/
def acceptsC (r : MatchResult) : Bool :=
  r.is_matched && decide ((0.6 : ℚ) < r.match_confidence)

/-- Relaxed re-check of tier 2 (line 349): at least 0.8. -/
def acceptsA2 (r : MatchResult) : Bool :=
  r.is_matched && decide ((0.8 : ℚ) ≤ r.match_confidence)

/-- The explicit no-match result (lines 354-360). -/
def noMatchResult (vikiId : String) (vikiTitle : String) : MatchResult :=
  { viki_id := some vikiId
    viki_title := vikiTitle
    match_confidence := 0
    match_method := some "no_match"
    notes := "No matching show found" }

/-- Observable outcome of one `match()` call: the returned result, the table
afterwards, and the logs of cache reads, cache writes and tier invocations. -/
structure MatchTrace where
  result : MatchResult
  db : Cache
  reads : List String
  writes : List MatchResult
  tiers : List String
deriving DecidableEq

/-- Tiers 2-4 plus the relaxed re-check and the no-match fallback
(lines 319-362), entered when the cache did not serve a matched result. -/
def matchTiers (env : Env) (db : Cache) (s : VikiShow) (vikiId : String)
    (vikiTitle : String) : MatchTrace :=
  let rA := tierExactTrakt env s vikiTitle
  if acceptsA rA then
    ⟨rA, dbSave db rA env.now, [vikiId], [rA], ["exact_trakt"]⟩
  else
    let rB := tierTvdb env s vikiTitle
    if acceptsB rB then
      ⟨rB, dbSave db rB env.now, [vikiId], [rB], ["exact_trakt", "tvdb"]⟩
    else
      let rB2 := tierTvdbAliases env s vikiTitle
      if acceptsB2 rB2 then
        ⟨rB2, dbSave db rB2 env.now, [vikiId], [rB2],
          ["exact_trakt", "tvdb", "tvdb_aliases"]⟩
      else
        let rC := tierMdl env s vikiTitle
        if acceptsC rC then
          ⟨rC, dbSave db rC env.now, [vikiId], [rC],
            ["exact_trakt", "tvdb", "tvdb_aliases", "mdl"]⟩
        else
          -- fallback: re-run tier 2 and accept it at a relaxed threshold
          let rA2 := tierExactTrakt env s vikiTitle
          if acceptsA2 rA2 then
            ⟨rA2, dbSave db rA2 env.now, [vikiId], [rA2],
              ["exact_trakt", "tvdb", "tvdb_aliases", "mdl", "exact_trakt"]⟩
          else
            let rN := noMatchResult vikiId vikiTitle
            ⟨rN, dbSave db rN env.now, [vikiId], [rN],
              ["exact_trakt", "tvdb", "tvdb_aliases", "mdl", "exact_trakt"]⟩

/-- The body of `match()` after input validation: one cache read, then
either the matched cached result or the tier cascade. -/
def matchRun (env : Env) (db : Cache) (s : VikiShow) : MatchTrace :=
  let vikiId := (pyGetId s).getD ""
  let vikiTitle := vikiTitleOf s
  match dbGetResult db vikiId with
  | some cached =>
    if cached.is_matched then ⟨cached, db, [vikiId], [], []⟩
    else matchTiers env db s vikiId vikiTitle
  | none => matchTiers env db s vikiId vikiTitle

/-- `ShowMatcher.match`: raises `ValueError` on a falsy identifier
(lines 301-303) before anything else happens; otherwise runs the cascade. -/
def matchShow (env : Env) (db : Cache) (s : VikiShow) :
    Except String MatchTrace :=
  if pyStrTruthy (pyGetId s) then .ok (matchRun env db s)
  else .error "viki_show missing 'id' or 'viki_id' field"

/-! ## Helper lemmas -/

theorem rowToResult_resultToRow (r : MatchResult) (now : String) :
    rowToResult (resultToRow r now) = r := rfl

theorem pyStrTruthy_eq_some (o : Option String) (h : pyStrTruthy o = true) :
    o = some (o.getD "") := by
  cases o with
  | none => cases h
  | some s => rfl

theorem dbGetRow_dbSave_self (db : Cache) (res : MatchResult) (now : String)
    (k : String) (h : res.viki_id = some k) :
    dbGetRow (dbSave db res now) k = some (resultToRow res now) := by
  unfold dbGetRow dbSave
  rw [List.find?_cons_of_pos]
  simp [resultToRow, h]

theorem dbGetResult_dbSave_self (db : Cache) (res : MatchResult) (now : String)
    (k : String) (h : res.viki_id = some k) :
    dbGetResult (dbSave db res now) k = some res := by
  unfold dbGetResult
  rw [dbGetRow_dbSave_self db res now k h]
  simp [rowToResult_resultToRow]

theorem finishExact_viki_id (env : Env) (vikiId : Option String)
    (vikiTitle normQ normQwo slugQ slugQwo : String) (it : SearchItem)
    (via : Bool) :
    (finishExact env vikiId vikiTitle normQ normQwo slugQ slugQwo it via).viki_id
      = vikiId := rfl

theorem tierExactTrakt_viki_id (env : Env) (s : VikiShow) (t : String) :
    (tierExactTrakt env s t).viki_id = pyGetId s := by
  unfold tierExactTrakt
  cases env.trakt with
  | none => rfl
  | some tc =>
    simp only []
    split
    · rfl
    · split
      · exact finishExact_viki_id ..
      · split
        · rfl
        · exact finishExact_viki_id ..

theorem tierTvdb_viki_id (env : Env) (s : VikiShow) (t : String) :
    (tierTvdb env s t).viki_id = pyGetId s := by
  unfold tierTvdb
  dsimp only
  repeat' split
  all_goals rfl

theorem tierTvdbAliases_viki_id (env : Env) (s : VikiShow) (t : String) :
    (tierTvdbAliases env s t).viki_id = pyGetId s := by
  unfold tierTvdbAliases
  dsimp only
  repeat' split
  all_goals rfl

theorem tierMdl_eq_base (env : Env) (s : VikiShow) (t : String) :
    tierMdl env s t = { viki_id := pyGetId s, viki_title := t } := by
  unfold tierMdl
  split
  · rfl
  · split
    · rfl
    · split <;> rfl

theorem tierMdl_viki_id (env : Env) (s : VikiShow) (t : String) :
    (tierMdl env s t).viki_id = pyGetId s := by
  rw [tierMdl_eq_base]

theorem tierExactTrakt_cases (env : Env) (s : VikiShow) (t : String) :
    ((tierExactTrakt env s t).trakt_id = none ∧
      (tierExactTrakt env s t).match_confidence = 0 ∧
      (tierExactTrakt env s t).match_method = none) ∨
    ((tierExactTrakt env s t).match_confidence = 1 ∧
      (tierExactTrakt env s t).match_method = some "slug_lookup") ∨
    ((tierExactTrakt env s t).match_confidence = 1 ∧
      (tierExactTrakt env s t).match_method = some "exact_trakt") ∨
    ((tierExactTrakt env s t).match_confidence = 0.9 ∧
      (tierExactTrakt env s t).match_method = some "exact_trakt_article") ∨
    ((tierExactTrakt env s t).match_confidence = 0.8 ∧
      (tierExactTrakt env s t).match_method = some "exact_trakt_first") := by
  unfold tierExactTrakt finishExact
  cases env.trakt with
  | none => left; exact ⟨rfl, rfl, rfl⟩
  | some tc =>
    dsimp only
    repeat' split
    all_goals simp

theorem tierTvdb_cases (env : Env) (s : VikiShow) (t : String) :
    ((tierTvdb env s t).trakt_id = none ∧
      (tierTvdb env s t).match_confidence = 0 ∧
      (tierTvdb env s t).match_method = none) ∨
    ((tierTvdb env s t).match_confidence = 0.95 ∧
      (tierTvdb env s t).match_method = some "tvdb") := by
  unfold tierTvdb
  dsimp only
  repeat' split
  all_goals simp

/-- Invariant carried by `best_match`: any recorded confidence is positive. -/
def bmConfOk : Option BestMatch → Prop
  | none => True
  | some b => 0 < b.2.2.1

theorem aliasScanAliases_ok (tid : Int) (normQ normQwo : String) :
    ∀ (as : List TvdbAliasObj) (bm : Option BestMatch) (bc : ℚ), bmConfOk bm →
      bmConfOk (aliasScanAliases tid normQ normQwo as bm bc).1 := by
  intro as
  induction as with
  | nil => intro bm bc h; exact h
  | cons a rest ih =>
    intro bm bc h
    unfold aliasScanAliases
    dsimp only
    split
    · split
      · show (0 : ℚ) < 0.92
        norm_num
      · split
        · exact ih _ _ (by show (0 : ℚ) < 0.82; norm_num)
        · exact ih _ _ h
    · exact ih _ _ h

theorem aliasItemStep_ok (tid : Int) (normQ normQwo : String) (dd : TvdbDetail)
    (bm : Option BestMatch) (bc : ℚ) (h : bmConfOk bm) :
    bmConfOk (aliasItemStep tid normQ normQwo dd bm bc).1 := by
  unfold aliasItemStep
  dsimp only
  apply aliasScanAliases_ok
  split
  · show (0 : ℚ) < 0.85
    norm_num
  · exact h

theorem aliasScanItems_ok (env : Env) (normQ normQwo : String) :
    ∀ (items : List TvdbItem) (bm : Option BestMatch) (bc : ℚ), bmConfOk bm →
      bmConfOk (aliasScanItems env normQ normQwo items bm bc) := by
  intro items
  induction items with
  | nil => intro bm bc h; exact h
  | cons r rest ih =>
    intro bm bc h
    unfold aliasScanItems
    dsimp only
    split
    · exact ih _ _ h
    · split
      · exact ih _ _ h
      · split
        · exact ih _ _ h
        · split
          · show (0 : ℚ) < 0.95
            norm_num
          · rename_i hid x st dd heqd hst hprim
            have hs2 := aliasItemStep_ok ((pyOrIntO r.tvdb_id r.id).getD 0)
              normQ normQwo dd bm bc h
            split
            · next best heqb =>
              split
              · rw [heqb] at hs2
                exact hs2
              · exact ih _ _ hs2
            · next heqb => exact ih _ _ hs2

theorem tierTvdbAliases_cases (env : Env) (s : VikiShow) (t : String) :
    ((tierTvdbAliases env s t).trakt_id = none ∧
      (tierTvdbAliases env s t).match_confidence = 0 ∧
      (tierTvdbAliases env s t).match_method = none) ∨
    (0 < (tierTvdbAliases env s t).match_confidence ∧
      (tierTvdbAliases env s t).match_method.isSome = true) := by
  unfold tierTvdbAliases
  dsimp only
  repeat' split
  all_goals try (left; exact ⟨rfl, rfl, rfl⟩)
  all_goals
    rename_i results heqs h2 h1 x2a best heqb x1a tc heqt x0a tShow heqshow hid
    right
    refine ⟨?_, rfl⟩
    have hpos := aliasScanItems_ok env (normStr t) (normNoArticleStr t)
      (results.take 10) none 0 trivial
    rw [heqb] at hpos
    exact hpos

theorem dbGetRow_key (db : Cache) (k : String) (row : Row)
    (h : dbGetRow db k = some row) : row.viki_id = some k := by
  have := List.find?_some h
  simpa using this

theorem matchTiers_frame (env : Env) (db : Cache) (s : VikiShow)
    (vid title : String) :
    (matchTiers env db s vid title).db
        = dbSave db (matchTiers env db s vid title).result env.now ∧
    (matchTiers env db s vid title).writes = [(matchTiers env db s vid title).result] ∧
    (matchTiers env db s vid title).reads = [vid] := by
  unfold matchTiers
  dsimp only
  repeat' split
  all_goals exact ⟨rfl, rfl, rfl⟩

theorem matchTiers_viki_id (env : Env) (db : Cache) (s : VikiShow)
    (vid title : String) (h : pyGetId s = some vid) :
    (matchTiers env db s vid title).result.viki_id = some vid := by
  unfold matchTiers
  dsimp only
  repeat' split
  all_goals
    simp [tierExactTrakt_viki_id, tierTvdb_viki_id, tierTvdbAliases_viki_id,
      tierMdl_viki_id, noMatchResult, h]

theorem matchTiers_branches (env : Env) (db : Cache) (s : VikiShow)
    (vid title : String) :
    (acceptsA (tierExactTrakt env s title) = true →
      matchTiers env db s vid title =
        ⟨tierExactTrakt env s title,
          dbSave db (tierExactTrakt env s title) env.now, [vid],
          [tierExactTrakt env s title], ["exact_trakt"]⟩) ∧
    (acceptsA (tierExactTrakt env s title) = false →
      acceptsB (tierTvdb env s title) = true →
      matchTiers env db s vid title =
        ⟨tierTvdb env s title, dbSave db (tierTvdb env s title) env.now, [vid],
          [tierTvdb env s title], ["exact_trakt", "tvdb"]⟩) ∧
    (acceptsA (tierExactTrakt env s title) = false →
      acceptsB (tierTvdb env s title) = false →
      acceptsB2 (tierTvdbAliases env s title) = true →
      matchTiers env db s vid title =
        ⟨tierTvdbAliases env s title,
          dbSave db (tierTvdbAliases env s title) env.now, [vid],
          [tierTvdbAliases env s title], ["exact_trakt", "tvdb", "tvdb_aliases"]⟩) ∧
    (acceptsA (tierExactTrakt env s title) = false →
      acceptsB (tierTvdb env s title) = false →
      acceptsB2 (tierTvdbAliases env s title) = false →
      acceptsC (tierMdl env s title) = true →
      matchTiers env db s vid title =
        ⟨tierMdl env s title, dbSave db (tierMdl env s title) env.now, [vid],
          [tierMdl env s title], ["exact_trakt", "tvdb", "tvdb_aliases", "mdl"]⟩) ∧
    (acceptsA (tierExactTrakt env s title) = false →
      acceptsB (tierTvdb env s title) = false →
      acceptsB2 (tierTvdbAliases env s title) = false →
      acceptsC (tierMdl env s title) = false →
      acceptsA2 (tierExactTrakt env s title) = true →
      matchTiers env db s vid title =
        ⟨tierExactTrakt env s title,
          dbSave db (tierExactTrakt env s title) env.now, [vid],
          [tierExactTrakt env s title],
          ["exact_trakt", "tvdb", "tvdb_aliases", "mdl", "exact_trakt"]⟩) ∧
    (acceptsA (tierExactTrakt env s title) = false →
      acceptsB (tierTvdb env s title) = false →
      acceptsB2 (tierTvdbAliases env s title) = false →
      acceptsC (tierMdl env s title) = false →
      acceptsA2 (tierExactTrakt env s title) = false →
      matchTiers env db s vid title =
        ⟨noMatchResult vid title, dbSave db (noMatchResult vid title) env.now,
          [vid], [noMatchResult vid title],
          ["exact_trakt", "tvdb", "tvdb_aliases", "mdl", "exact_trakt"]⟩) := by
  refine ⟨?_, ?_, ?_, ?_, ?_, ?_⟩ <;> intros <;> simp only [matchTiers, *] <;>
    simp [*]

/-- Core characterization of one validated `match()` call: the single cache
read, the identity of the result's key, the final table serving back the
returned result, and the hit/miss dichotomy. -/
theorem matchRun_spec (env : Env) (db : Cache) (s : VikiShow)
    (h : pyStrTruthy (pyGetId s) = true) :
    (matchRun env db s).reads = [(pyGetId s).getD ""] ∧
    (matchRun env db s).result.viki_id = some ((pyGetId s).getD "") ∧
    dbGetResult (matchRun env db s).db ((pyGetId s).getD "")
      = some (matchRun env db s).result ∧
    ((∃ c, dbGetResult db ((pyGetId s).getD "") = some c ∧ c.is_matched = true ∧
        matchRun env db s = ⟨c, db, [(pyGetId s).getD ""], [], []⟩) ∨
      ((∀ c, dbGetResult db ((pyGetId s).getD "") = some c → c.is_matched = false) ∧
        matchRun env db s
          = matchTiers env db s ((pyGetId s).getD "") (vikiTitleOf s))) := by
  have hkey : pyGetId s = some ((pyGetId s).getD "") := pyStrTruthy_eq_some _ h
  have hvid := matchTiers_viki_id env db s ((pyGetId s).getD "") (vikiTitleOf s) hkey
  have hframe := matchTiers_frame env db s ((pyGetId s).getD "") (vikiTitleOf s)
  unfold matchRun
  dsimp only
  cases hc : dbGetResult db ((pyGetId s).getD "") with
  | none =>
    dsimp only
    refine ⟨hframe.2.2, hvid, ?_, Or.inr ⟨(fun c hcc => by cases hcc), rfl⟩⟩
    rw [hframe.1]
    exact dbGetResult_dbSave_self _ _ _ _ hvid
  | some cached =>
    have hcached : cached.viki_id = some ((pyGetId s).getD "") := by
      unfold dbGetResult at hc
      cases hrow : dbGetRow db ((pyGetId s).getD "") with
      | none => rw [hrow] at hc; cases hc
      | some row =>
        rw [hrow] at hc
        have hkeyrow := dbGetRow_key db _ row hrow
        have hrc : rowToResult row = cached := by simpa using hc
        rw [← hrc]
        simpa [rowToResult] using hkeyrow
    dsimp only
    cases hm : cached.is_matched with
    | true =>
      rw [if_pos rfl]
      exact ⟨rfl, hcached, hc, Or.inl ⟨cached, rfl, hm, rfl⟩⟩
    | false =>
      rw [if_neg (by simp : ¬ (false = true))]
      refine ⟨hframe.2.2, hvid, ?_,
        Or.inr ⟨(fun c hcc => by cases hcc; exact hm), rfl⟩⟩
      rw [hframe.1]
      exact dbGetResult_dbSave_self _ _ _ _ hvid

theorem is_matched_of_none (r : MatchResult) (h : r.trakt_id = none) :
    r.is_matched = false := by
  unfold MatchResult.is_matched
  rw [h]
  rfl

theorem tierExactTrakt_conf_ne_zero (env : Env) (s : VikiShow) (t : String)
    (h : (tierExactTrakt env s t).trakt_id.isSome = true) :
    (tierExactTrakt env s t).match_confidence ≠ 0 := by
  rcases tierExactTrakt_cases env s t with ⟨h1, _, _⟩ | ⟨h1, _⟩ | ⟨h1, _⟩ | ⟨h1, _⟩ | ⟨h1, _⟩
  · rw [h1] at h; cases h
  all_goals (rw [h1]; norm_num)

theorem tierTvdb_conf_ne_zero (env : Env) (s : VikiShow) (t : String)
    (h : (tierTvdb env s t).trakt_id.isSome = true) :
    (tierTvdb env s t).match_confidence ≠ 0 := by
  rcases tierTvdb_cases env s t with ⟨h1, _, _⟩ | ⟨h1, _⟩
  · rw [h1] at h; cases h
  · rw [h1]; norm_num

theorem tierTvdbAliases_conf_ne_zero (env : Env) (s : VikiShow) (t : String)
    (h : (tierTvdbAliases env s t).trakt_id.isSome = true) :
    (tierTvdbAliases env s t).match_confidence ≠ 0 := by
  rcases tierTvdbAliases_cases env s t with ⟨h1, _, _⟩ | ⟨h1, _⟩
  · rw [h1] at h; cases h
  · exact (ne_of_lt h1).symm

theorem tierMdl_conf_ne_zero (env : Env) (s : VikiShow) (t : String)
    (h : (tierMdl env s t).trakt_id.isSome = true) :
    (tierMdl env s t).match_confidence ≠ 0 := by
  rw [tierMdl_eq_base] at h
  cases h

theorem matchTiers_result_cases (env : Env) (db : Cache) (s : VikiShow)
    (vid title : String) :
    (matchTiers env db s vid title).result = tierExactTrakt env s title ∨
    (matchTiers env db s vid title).result = tierTvdb env s title ∨
    (matchTiers env db s vid title).result = tierTvdbAliases env s title ∨
    (matchTiers env db s vid title).result = tierMdl env s title ∨
    (matchTiers env db s vid title).result = noMatchResult vid title := by
  unfold matchTiers
  dsimp only
  repeat' split
  all_goals simp

theorem dbGetResult_mem (db : Cache) (k : String) (c : MatchResult)
    (h : dbGetResult db k = some c) : ∃ row ∈ db, c = rowToResult row := by
  unfold dbGetResult at h
  cases hrow : dbGetRow db k with
  | none => rw [hrow] at h; cases h
  | some row =>
    rw [hrow] at h
    refine ⟨row, List.mem_of_find?_eq_some hrow, ?_⟩
    cases h
    rfl

/-! ## Claim theorems -/

/-- C9: the string normalizers are total pure functions.  `normalize`
(`_norm`) lowercases, collapses every run of non-alphanumeric characters to
a single space and trims, which is exactly joining the alphanumeric runs of
the lowercased string with single spaces; `slugify` (`_slugify`) does the
same with hyphens; and falsy input (`None` or `""`) yields `""` without any
error (the functions are total Lean functions). -/
theorem normalizers_match_spec :
    (∀ s : String, normStr s = normalizeSpec s) ∧
    (∀ s : String, slugStr s = slugifySpec s) ∧
    pyNorm none = "" ∧ pyNorm (some "") = "" ∧
    pySlug none = "" ∧ pySlug (some "") = "" := by
  refine ⟨?_, ?_, rfl, rfl, rfl, rfl⟩
  · intro s
    unfold normStr normalizeSpec
    rw [collapse_strip_eq_join ' ' (by decide)]
  · intro s
    unfold slugStr slugifySpec
    rw [collapse_strip_eq_join '-' (by decide)]

/-- C10: `MatchDB.save(r)` followed by `MatchDB.get(r.viki_id)` returns a
`MatchResult` equal to `r` in every field, the `matched_at` round trip
through its ISO serialization (identity in the ISO-string model, `None`
included) covered.  `r.viki_id = some k` states that `viki_id` is a string,
as the dataclass declares. -/
theorem db_save_get_roundtrip (db : Cache) (r : MatchResult) (now k : String)
    (h : r.viki_id = some k) :
    dbGetResult (dbSave db r now) k = some r ∧
    rowToResult (resultToRow r now) = r :=
  ⟨dbGetResult_dbSave_self db r now k h, rowToResult_resultToRow r now⟩

/-- Concrete matched result with a `matched_at` timestamp. -/
def sampleResA : MatchResult :=
  { viki_id := some "36530c", viki_title := "Ms. Incognito"
    trakt_id := some 261744, trakt_slug := some "ms-incognito"
    trakt_title := some "Ms. Incognito", match_confidence := 1
    match_method := some "exact_trakt", tvdb_id := some 443533
    matched_at := some "2026-01-01T00:00:00+00:00", notes := "ok" }

/-- Concrete unmatched result with `matched_at = None`. -/
def sampleResB : MatchResult :=
  { viki_id := some "v2", viki_title := "Nothing", match_confidence := 0
    match_method := some "no_match", matched_at := none
    notes := "No matching show found" }

theorem db_save_get_roundtrip_witness :
    (dbGetResult (dbSave [] sampleResA "2026-02-03T04:05:06+00:00") "36530c"
        = some sampleResA ∧
      rowToResult (resultToRow sampleResA "2026-02-03T04:05:06+00:00") = sampleResA) ∧
    (dbGetResult (dbSave [] sampleResB "t") "v2" = some sampleResB ∧
      rowToResult (resultToRow sampleResB "t") = sampleResB) :=
  ⟨db_save_get_roundtrip [] sampleResA "2026-02-03T04:05:06+00:00" "36530c" rfl,
    db_save_get_roundtrip [] sampleResB "t" "v2" rfl⟩

/-- C7 (code bug): the MDL alias-site tier never matches anything.  The
alias loop's first statement reads `tvdb.base_url` (and `tvdb.headers`),
attributes `http_cache.CachedSession` does not define, so it raises
`AttributeError` and the blanket handler returns the bare unmatched result;
no alias is ever assigned a confidence.  Every invocation, whatever the MDL
aliases and however the TVDB/Trakt cross-reference would respond, returns
the unmatched bare result. -/
theorem tier_mdl_never_matches (env : Env) (s : VikiShow) (t : String) :
    tierMdl env s t = { viki_id := pyGetId s, viki_title := t } ∧
    (tierMdl env s t).is_matched = false ∧
    (tierMdl env s t).match_confidence = 0 ∧
    (tierMdl env s t).match_method = none := by
  have h := tierMdl_eq_base env s t
  refine ⟨h, ?_, by rw [h], by rw [h]⟩
  exact is_matched_of_none _ (by rw [h])

/-- C1: `is_matched()` is, for every `MatchResult`, exactly
"`trakt_id` non-null and `match_confidence > 0`"; and no result constructed
or returned by the engine — any tier's result, or `match()`'s result over a
cache whose rows respect the invariant — carries a `trakt_id` together with
`match_confidence = 0`. -/
theorem is_matched_invariant :
    (∀ r : MatchResult,
      r.is_matched = (r.trakt_id.isSome && decide ((0 : ℚ) < r.match_confidence))) ∧
    (∀ (env : Env) (s : VikiShow) (t : String),
      (tierExactTrakt env s t).trakt_id.isSome = true →
      (tierExactTrakt env s t).match_confidence ≠ 0) ∧
    (∀ (env : Env) (s : VikiShow) (t : String),
      (tierTvdb env s t).trakt_id.isSome = true →
      (tierTvdb env s t).match_confidence ≠ 0) ∧
    (∀ (env : Env) (s : VikiShow) (t : String),
      (tierTvdbAliases env s t).trakt_id.isSome = true →
      (tierTvdbAliases env s t).match_confidence ≠ 0) ∧
    (∀ (env : Env) (s : VikiShow) (t : String),
      (tierMdl env s t).trakt_id.isSome = true →
      (tierMdl env s t).match_confidence ≠ 0) ∧
    (∀ (env : Env) (db : Cache) (s : VikiShow),
      pyStrTruthy (pyGetId s) = true →
      (∀ row ∈ db, row.trakt_id.isSome = true → row.confidence ≠ 0) →
      (matchRun env db s).result.trakt_id.isSome = true →
      (matchRun env db s).result.match_confidence ≠ 0) := by
  refine ⟨fun r => rfl, tierExactTrakt_conf_ne_zero, tierTvdb_conf_ne_zero,
    tierTvdbAliases_conf_ne_zero, tierMdl_conf_ne_zero, ?_⟩
  intro env db s hid hdb hsome
  rcases (matchRun_spec env db s hid).2.2.2 with ⟨c, hc, _, heq⟩ | ⟨_, heq⟩
  · obtain ⟨row, hrowmem, hcrow⟩ := dbGetResult_mem db _ c hc
    rw [heq] at hsome ⊢
    dsimp only at hsome ⊢
    rw [hcrow] at hsome ⊢
    exact hdb row hrowmem hsome
  · rw [heq] at hsome ⊢
    rcases matchTiers_result_cases env db s ((pyGetId s).getD "") (vikiTitleOf s) with
      hr | hr | hr | hr | hr <;> rw [hr] at hsome ⊢
    · exact tierExactTrakt_conf_ne_zero env s _ hsome
    · exact tierTvdb_conf_ne_zero env s _ hsome
    · exact tierTvdbAliases_conf_ne_zero env s _ hsome
    · exact tierMdl_conf_ne_zero env s _ hsome
    · cases hsome

/-- Trakt client whose search finds an exact title hit. -/
def tcExact : TraktO :=
  { searchShows := fun _ => [{ show_ := { title := some "T", idTrakt := some 7, idSlug := some "t" } }]
    getShowBySlug := fun _ => none
    getShowByTvdb := fun _ => none }

/-- Environment with only the Trakt client configured. -/
def envExact : Env := { trakt := some tcExact }

/-- Show with id `v` and English title `T`. -/
def showV : VikiShow := { id := some "v", titles := [("en", "T")] }

theorem is_matched_invariant_witness :
    (matchRun envExact [] showV).result.match_confidence ≠ 0 :=
  is_matched_invariant.2.2.2.2.2 envExact [] showV (by with_unfolding_all decide)
    (by intro row hrow; cases hrow) (by with_unfolding_all decide)

theorem accepts_gate_true (b : Bool) (p : Prop) [Decidable p] (h1 : b = true)
    (h2 : p) : (b && decide p) = true := by simp [h1, h2]

theorem accepts_gate_false (b : Bool) (p : Prop) [Decidable p]
    (h : ¬(b = true ∧ p)) : (b && decide p) = false := by
  rw [Bool.eq_false_iff]
  intro hh
  simp only [Bool.and_eq_true, decide_eq_true_eq] at hh
  exact h hh

/-- C2: for a show carrying an identifier and not served from a matched
cache entry, `match()` runs tier 2 (exact search), tier 3 (TVDB), tier 3b
(TVDB aliases), tier 4 (MDL), then re-runs tier 2, in that order; it
persists and returns the first tier result that is matched and clears that
tier's threshold (strictly above 0.85, 0.7, 0.65, 0.6, and at least 0.8 for
the re-check); with no acceptance it persists and returns the
confidence-0 `"no_match"` result. -/
theorem match_tier_order (env : Env) (db : Cache) (s : VikiShow)
    (hid : pyStrTruthy (pyGetId s) = true)
    (hmiss : ∀ c, dbGetResult db ((pyGetId s).getD "") = some c →
      c.is_matched = false) :
    matchRun env db s
        = matchTiers env db s ((pyGetId s).getD "") (vikiTitleOf s) ∧
    (((tierExactTrakt env s (vikiTitleOf s)).is_matched = true ∧
        (0.85 : ℚ) < (tierExactTrakt env s (vikiTitleOf s)).match_confidence) →
      matchRun env db s =
        ⟨tierExactTrakt env s (vikiTitleOf s),
          dbSave db (tierExactTrakt env s (vikiTitleOf s)) env.now,
          [(pyGetId s).getD ""], [tierExactTrakt env s (vikiTitleOf s)],
          ["exact_trakt"]⟩) ∧
    (¬((tierExactTrakt env s (vikiTitleOf s)).is_matched = true ∧
        (0.85 : ℚ) < (tierExactTrakt env s (vikiTitleOf s)).match_confidence) →
      ((tierTvdb env s (vikiTitleOf s)).is_matched = true ∧
        (0.7 : ℚ) < (tierTvdb env s (vikiTitleOf s)).match_confidence) →
      matchRun env db s =
        ⟨tierTvdb env s (vikiTitleOf s),
          dbSave db (tierTvdb env s (vikiTitleOf s)) env.now,
          [(pyGetId s).getD ""], [tierTvdb env s (vikiTitleOf s)],
          ["exact_trakt", "tvdb"]⟩) ∧
    (¬((tierExactTrakt env s (vikiTitleOf s)).is_matched = true ∧
        (0.85 : ℚ) < (tierExactTrakt env s (vikiTitleOf s)).match_confidence) →
      ¬((tierTvdb env s (vikiTitleOf s)).is_matched = true ∧
        (0.7 : ℚ) < (tierTvdb env s (vikiTitleOf s)).match_confidence) →
      ((tierTvdbAliases env s (vikiTitleOf s)).is_matched = true ∧
        (0.65 : ℚ) < (tierTvdbAliases env s (vikiTitleOf s)).match_confidence) →
      matchRun env db s =
        ⟨tierTvdbAliases env s (vikiTitleOf s),
          dbSave db (tierTvdbAliases env s (vikiTitleOf s)) env.now,
          [(pyGetId s).getD ""], [tierTvdbAliases env s (vikiTitleOf s)],
          ["exact_trakt", "tvdb", "tvdb_aliases"]⟩) ∧
    (¬((tierExactTrakt env s (vikiTitleOf s)).is_matched = true ∧
        (0.85 : ℚ) < (tierExactTrakt env s (vikiTitleOf s)).match_confidence) →
      ¬((tierTvdb env s (vikiTitleOf s)).is_matched = true ∧
        (0.7 : ℚ) < (tierTvdb env s (vikiTitleOf s)).match_confidence) →
      ¬((tierTvdbAliases env s (vikiTitleOf s)).is_matched = true ∧
        (0.65 : ℚ) < (tierTvdbAliases env s (vikiTitleOf s)).match_confidence) →
      ((tierMdl env s (vikiTitleOf s)).is_matched = true ∧
        (0.6 : ℚ) < (tierMdl env s (vikiTitleOf s)).match_confidence) →
      matchRun env db s =
        ⟨tierMdl env s (vikiTitleOf s),
          dbSave db (tierMdl env s (vikiTitleOf s)) env.now,
          [(pyGetId s).getD ""], [tierMdl env s (vikiTitleOf s)],
          ["exact_trakt", "tvdb", "tvdb_aliases", "mdl"]⟩) ∧
    (¬((tierExactTrakt env s (vikiTitleOf s)).is_matched = true ∧
        (0.85 : ℚ) < (tierExactTrakt env s (vikiTitleOf s)).match_confidence) →
      ¬((tierTvdb env s (vikiTitleOf s)).is_matched = true ∧
        (0.7 : ℚ) < (tierTvdb env s (vikiTitleOf s)).match_confidence) →
      ¬((tierTvdbAliases env s (vikiTitleOf s)).is_matched = true ∧
        (0.65 : ℚ) < (tierTvdbAliases env s (vikiTitleOf s)).match_confidence) →
      ¬((tierMdl env s (vikiTitleOf s)).is_matched = true ∧
        (0.6 : ℚ) < (tierMdl env s (vikiTitleOf s)).match_confidence) →
      ((tierExactTrakt env s (vikiTitleOf s)).is_matched = true ∧
        (0.8 : ℚ) ≤ (tierExactTrakt env s (vikiTitleOf s)).match_confidence) →
      matchRun env db s =
        ⟨tierExactTrakt env s (vikiTitleOf s),
          dbSave db (tierExactTrakt env s (vikiTitleOf s)) env.now,
          [(pyGetId s).getD ""], [tierExactTrakt env s (vikiTitleOf s)],
          ["exact_trakt", "tvdb", "tvdb_aliases", "mdl", "exact_trakt"]⟩) ∧
    (¬((tierExactTrakt env s (vikiTitleOf s)).is_matched = true ∧
        (0.85 : ℚ) < (tierExactTrakt env s (vikiTitleOf s)).match_confidence) →
      ¬((tierTvdb env s (vikiTitleOf s)).is_matched = true ∧
        (0.7 : ℚ) < (tierTvdb env s (vikiTitleOf s)).match_confidence) →
      ¬((tierTvdbAliases env s (vikiTitleOf s)).is_matched = true ∧
        (0.65 : ℚ) < (tierTvdbAliases env s (vikiTitleOf s)).match_confidence) →
      ¬((tierMdl env s (vikiTitleOf s)).is_matched = true ∧
        (0.6 : ℚ) < (tierMdl env s (vikiTitleOf s)).match_confidence) →
      ¬((tierExactTrakt env s (vikiTitleOf s)).is_matched = true ∧
        (0.8 : ℚ) ≤ (tierExactTrakt env s (vikiTitleOf s)).match_confidence) →
      matchRun env db s =
        ⟨noMatchResult ((pyGetId s).getD "") (vikiTitleOf s),
          dbSave db (noMatchResult ((pyGetId s).getD "") (vikiTitleOf s)) env.now,
          [(pyGetId s).getD ""],
          [noMatchResult ((pyGetId s).getD "") (vikiTitleOf s)],
          ["exact_trakt", "tvdb", "tvdb_aliases", "mdl", "exact_trakt"]⟩ ∧
      (noMatchResult ((pyGetId s).getD "") (vikiTitleOf s)).match_confidence = 0 ∧
      (noMatchResult ((pyGetId s).getD "") (vikiTitleOf s)).match_method
        = some "no_match") := by
  have h0 : matchRun env db s
      = matchTiers env db s ((pyGetId s).getD "") (vikiTitleOf s) := by
    rcases (matchRun_spec env db s hid).2.2.2 with ⟨c, hc, hcm, _⟩ | ⟨_, heq⟩
    · rw [hmiss c hc] at hcm; cases hcm
    · exact heq
  have hb := matchTiers_branches env db s ((pyGetId s).getD "") (vikiTitleOf s)
  refine ⟨h0, ?_, ?_, ?_, ?_, ?_, ?_⟩
  · intro hA
    rw [h0]
    exact hb.1 (accepts_gate_true _ _ hA.1 hA.2)
  · intro hnA hB
    rw [h0]
    exact hb.2.1 (accepts_gate_false _ _ hnA) (accepts_gate_true _ _ hB.1 hB.2)
  · intro hnA hnB hB2
    rw [h0]
    exact hb.2.2.1 (accepts_gate_false _ _ hnA) (accepts_gate_false _ _ hnB)
      (accepts_gate_true _ _ hB2.1 hB2.2)
  · intro hnA hnB hnB2 hC
    rw [h0]
    exact hb.2.2.2.1 (accepts_gate_false _ _ hnA) (accepts_gate_false _ _ hnB)
      (accepts_gate_false _ _ hnB2) (accepts_gate_true _ _ hC.1 hC.2)
  · intro hnA hnB hnB2 hnC hA2
    rw [h0]
    exact hb.2.2.2.2.1 (accepts_gate_false _ _ hnA) (accepts_gate_false _ _ hnB)
      (accepts_gate_false _ _ hnB2) (accepts_gate_false _ _ hnC)
      (accepts_gate_true _ _ hA2.1 hA2.2)
  · intro hnA hnB hnB2 hnC hnA2
    rw [h0]
    exact ⟨hb.2.2.2.2.2 (accepts_gate_false _ _ hnA) (accepts_gate_false _ _ hnB)
      (accepts_gate_false _ _ hnB2) (accepts_gate_false _ _ hnC)
      (accepts_gate_false _ _ hnA2), rfl, rfl⟩

theorem match_tier_order_witness :
    matchRun envExact [] showV
      = matchTiers envExact [] showV ((pyGetId showV).getD "") (vikiTitleOf showV) :=
  (match_tier_order envExact [] showV (by with_unfolding_all decide)
    (fun c hc => Option.noConfusion hc)).1

/-- Environment with nothing configured at all. -/
def envBare : Env := { trakt := none }

/-- C3 counterexample: a show whose `"id"` key is present (with the empty
string as value) still makes `match()` raise, so "raises iff neither an
`'id'` nor a `'viki_id'` key" is false on the code: the test is Python
truthiness of the values, not key presence. -/
theorem match_error_despite_id_key :
    ({ id := some "", viki_id := none, titles := [] } : VikiShow).id.isSome = true ∧
    (matchShow envBare [] { id := some "", viki_id := none, titles := [] }).toOption.isSome
      = false := by
  exact ⟨rfl, rfl⟩

/-- C3 (amended): `match()` raises exactly when the show has no truthy
(non-`None`, non-empty) value under `'id'` or `'viki_id'`; with a truthy
identifier it always returns a `MatchResult`, whatever the environment
does; and each failure inside a tier — missing configuration, a raised
network call, a scrape miss — leaves that tier with an unmatched result
instead of propagating. -/
theorem match_error_iff_falsy_id :
    (∀ (env : Env) (db : Cache) (s : VikiShow),
      (∃ e, matchShow env db s = .error e) ↔ pyStrTruthy (pyGetId s) = false) ∧
    (∀ (env : Env) (db : Cache) (s : VikiShow), pyStrTruthy (pyGetId s) = true →
      matchShow env db s = .ok (matchRun env db s)) ∧
    (∀ (env : Env) (s : VikiShow) (t : String), env.trakt = none →
      (tierExactTrakt env s t).is_matched = false) ∧
    (∀ (env : Env) (s : VikiShow) (t : String), pyStrTruthy env.tvdbApiKey = false →
      (tierTvdb env s t).is_matched = false ∧
      (tierTvdbAliases env s t).is_matched = false) ∧
    (∀ (env : Env) (s : VikiShow) (t m : String), env.tvdbLogin = .exn m →
      (tierTvdb env s t).is_matched = false ∧
      (tierTvdbAliases env s t).is_matched = false) ∧
    (∀ (env : Env) (s : VikiShow) (t m : String), env.tvdbSearch t = .exn m →
      (tierTvdb env s t).is_matched = false ∧
      (tierTvdbAliases env s t).is_matched = false) ∧
    (∀ (env : Env) (s : VikiShow) (t : String), env.mdlSearchAlias t = none →
      (tierMdl env s t).is_matched = false) := by
  refine ⟨?_, ?_, ?_, ?_, ?_, ?_, ?_⟩
  · intro env db s
    unfold matchShow
    constructor
    · intro ⟨e, he⟩
      by_contra hny
      rw [Bool.not_eq_false] at hny
      rw [if_pos hny] at he
      cases he
    · intro hn
      rw [if_neg (by rw [hn]; exact Bool.false_ne_true)]
      exact ⟨_, rfl⟩
  · intro env db s h
    unfold matchShow
    rw [if_pos h]
  · intro env s t h
    unfold tierExactTrakt
    rw [h]
    exact is_matched_of_none _ rfl
  · intro env s t h
    constructor
    · unfold tierTvdb
      rw [h]
      exact is_matched_of_none _ rfl
    · unfold tierTvdbAliases
      rw [h]
      exact is_matched_of_none _ rfl
  · intro env s t m h
    constructor
    · unfold tierTvdb
      dsimp only
      split
      · exact is_matched_of_none _ rfl
      · rw [h]
        exact is_matched_of_none _ rfl
    · unfold tierTvdbAliases
      dsimp only
      split
      · exact is_matched_of_none _ rfl
      · rw [h]
        exact is_matched_of_none _ rfl
  · intro env s t m h
    constructor
    · unfold tierTvdb
      dsimp only
      split
      · exact is_matched_of_none _ rfl
      · cases hl : env.tvdbLogin with
        | exn msg => exact is_matched_of_none _ rfl
        | ok pair =>
          obtain ⟨status, token⟩ := pair
          dsimp only
          split
          · exact is_matched_of_none _ rfl
          · split
            · exact is_matched_of_none _ rfl
            · rw [h]
              exact is_matched_of_none _ rfl
    · unfold tierTvdbAliases
      dsimp only
      split
      · exact is_matched_of_none _ rfl
      · cases hl : env.tvdbLogin with
        | exn msg => exact is_matched_of_none _ rfl
        | ok pair =>
          obtain ⟨status, token⟩ := pair
          dsimp only
          split
          · exact is_matched_of_none _ rfl
          · split
            · exact is_matched_of_none _ rfl
            · rw [h]
              exact is_matched_of_none _ rfl
  · intro env s t h
    unfold tierMdl
    rw [h]
    exact is_matched_of_none _ rfl

theorem match_error_iff_falsy_id_witness :
    matchShow envExact [] showV = .ok (matchRun envExact [] showV) :=
  match_error_iff_falsy_id.2.1 envExact [] showV (by with_unfolding_all decide)

theorem matchRun_cache_hit (env : Env) (db : Cache) (s : VikiShow)
    (c : MatchResult)
    (hc : dbGetResult db ((pyGetId s).getD "") = some c)
    (hm : c.is_matched = true) :
    matchRun env db s = ⟨c, db, [(pyGetId s).getD ""], [], []⟩ := by
  unfold matchRun
  dsimp only
  rw [hc]
  dsimp only
  rw [if_pos hm]

/-- C4: when `match(show)` returns a matched result, an immediately repeated
`match(show)` over the updated table returns the very same result — same
`target_id`, `target_slug` and `confidence` — served by the cache lookup
alone: no tier runs and nothing is written. -/
theorem match_idempotent_on_matched (env : Env) (db : Cache) (s : VikiShow)
    (hid : pyStrTruthy (pyGetId s) = true)
    (hm : (matchRun env db s).result.is_matched = true) :
    (matchRun env (matchRun env db s).db s).result = (matchRun env db s).result ∧
    (matchRun env (matchRun env db s).db s).result.trakt_id
      = (matchRun env db s).result.trakt_id ∧
    (matchRun env (matchRun env db s).db s).result.trakt_slug
      = (matchRun env db s).result.trakt_slug ∧
    (matchRun env (matchRun env db s).db s).result.match_confidence
      = (matchRun env db s).result.match_confidence ∧
    (matchRun env (matchRun env db s).db s).tiers = [] ∧
    (matchRun env (matchRun env db s).db s).writes = [] ∧
    (matchRun env (matchRun env db s).db s).reads = [(pyGetId s).getD ""] := by
  have hserve := (matchRun_spec env db s hid).2.2.1
  have h2 := matchRun_cache_hit env (matchRun env db s).db s
    (matchRun env db s).result hserve hm
  rw [h2]
  exact ⟨rfl, rfl, rfl, rfl, rfl, rfl, rfl⟩

theorem match_idempotent_on_matched_witness :
    (matchRun envExact (matchRun envExact [] showV).db showV).result
      = (matchRun envExact [] showV).result ∧
    (matchRun envExact (matchRun envExact [] showV).db showV).tiers = [] :=
  ⟨(match_idempotent_on_matched envExact [] showV (by with_unfolding_all decide)
      (by with_unfolding_all decide)).1,
    (match_idempotent_on_matched envExact [] showV (by with_unfolding_all decide)
      (by with_unfolding_all decide)).2.2.2.2.1⟩

/-- A matched cache row left behind by an earlier TVDB-tier match. -/
def rowTvdb : Row :=
  { viki_id := some "v", viki_title := "T", trakt_id := some 9
    trakt_slug := some "old-slug", trakt_title := some "Old"
    tvdb_id := some 1234, confidence := 0.95, method := some "tvdb"
    matched_at := some "2025-12-24T00:00:00+00:00", notes := ""
    updated_at := "2025-12-24T00:00:00+00:00" }

/-- C5 counterexample: tier A would score 1.0 for this show, yet `match()`
returns the cached result with the lower-priority method `"tvdb"`, because
a matched cache entry short-circuits every tier.  The claim omits the cache
case. -/
theorem exact_tier_priority_cache_cex :
    (tierExactTrakt envExact showV (vikiTitleOf showV)).is_matched = true ∧
    (0.86 : ℚ) ≤ (tierExactTrakt envExact showV (vikiTitleOf showV)).match_confidence ∧
    (matchRun envExact [rowTvdb] showV).result.match_method = some "tvdb" ∧
    ¬((matchRun envExact [rowTvdb] showV).result.match_method = some "exact_trakt" ∨
      (matchRun envExact [rowTvdb] showV).result.match_method = some "exact_trakt_article" ∨
      (matchRun envExact [rowTvdb] showV).result.match_method = some "slug_lookup") := by
  with_unfolding_all decide

/-- C5 (amended): for a show with a truthy identifier that is *not served
from a matched cache entry*, whenever the exact-search tier would produce a
matched result with confidence at least 0.86, `match()` returns exactly
that tier result, whose method is one of the exact-search methods —
regardless of what the TVDB, alias-expansion or MDL tiers would find. -/
theorem exact_tier_priority (env : Env) (db : Cache) (s : VikiShow)
    (hid : pyStrTruthy (pyGetId s) = true)
    (hmiss : ∀ c, dbGetResult db ((pyGetId s).getD "") = some c →
      c.is_matched = false)
    (hA : (tierExactTrakt env s (vikiTitleOf s)).is_matched = true)
    (hconf : (0.86 : ℚ) ≤ (tierExactTrakt env s (vikiTitleOf s)).match_confidence) :
    (matchRun env db s).result = tierExactTrakt env s (vikiTitleOf s) ∧
    ((matchRun env db s).result.match_method = some "exact_trakt" ∨
      (matchRun env db s).result.match_method = some "exact_trakt_article" ∨
      (matchRun env db s).result.match_method = some "slug_lookup") := by
  have h0 : matchRun env db s
      = matchTiers env db s ((pyGetId s).getD "") (vikiTitleOf s) := by
    rcases (matchRun_spec env db s hid).2.2.2 with ⟨c, hc, hcm, _⟩ | ⟨_, heq⟩
    · rw [hmiss c hc] at hcm; cases hcm
    · exact heq
  have hacc : acceptsA (tierExactTrakt env s (vikiTitleOf s)) = true :=
    accepts_gate_true _ _ hA (lt_of_lt_of_le (by norm_num) hconf)
  have hbr := (matchTiers_branches env db s ((pyGetId s).getD "")
    (vikiTitleOf s)).1 hacc
  have hres : (matchRun env db s).result = tierExactTrakt env s (vikiTitleOf s) := by
    rw [h0, hbr]
  refine ⟨hres, ?_⟩
  rw [hres]
  rcases tierExactTrakt_cases env s (vikiTitleOf s) with
    ⟨_, h1, _⟩ | ⟨_, h2⟩ | ⟨_, h2⟩ | ⟨_, h2⟩ | ⟨h1, _⟩
  · rw [h1] at hconf; norm_num at hconf
  · exact Or.inr (Or.inr h2)
  · exact Or.inl h2
  · exact Or.inr (Or.inl h2)
  · rw [h1] at hconf; norm_num at hconf

theorem exact_tier_priority_witness :
    (matchRun envExact [] showV).result
      = tierExactTrakt envExact showV (vikiTitleOf showV) :=
  (exact_tier_priority envExact [] showV (by with_unfolding_all decide)
    (fun c hc => Option.noConfusion hc) (by with_unfolding_all decide)
    (by with_unfolding_all decide)).1

set_option maxRecDepth 8000 in
/-- C8 counterexample: a call served from a matched cache entry issues no
`db.save` at all — the write list of the completed call is empty, so the
cache entry is *not* (re)written on that path, contrary to the claim's
"including the path where a matched cached result is found". -/
theorem cache_hit_no_write_cex :
    (matchRun envBare [rowTvdb] showV).result.is_matched = true ∧
    (matchRun envBare [rowTvdb] showV).writes = [] ∧
    (matchRun envBare [rowTvdb] showV).db = [rowTvdb] := by
  with_unfolding_all decide

/-- C8 (amended): every validated `match()` call reads the cache exactly
once, at the start; on every path the final table's entry for the show's
id deserializes to the returned result; and the entry is overwritten with
the returned result on every path *except* the matched-cache-hit path,
which writes nothing (the entry already held the returned result). -/
theorem cache_write_per_call (env : Env) (db : Cache) (s : VikiShow)
    (hid : pyStrTruthy (pyGetId s) = true) :
    (matchRun env db s).reads = [(pyGetId s).getD ""] ∧
    dbGetResult (matchRun env db s).db ((pyGetId s).getD "")
      = some (matchRun env db s).result ∧
    ((∃ c, dbGetResult db ((pyGetId s).getD "") = some c ∧ c.is_matched = true ∧
        (matchRun env db s).writes = [] ∧ (matchRun env db s).db = db) ∨
      ((matchRun env db s).writes = [(matchRun env db s).result] ∧
        (matchRun env db s).db
          = dbSave db (matchRun env db s).result env.now)) := by
  have hspec := matchRun_spec env db s hid
  refine ⟨hspec.1, hspec.2.2.1, ?_⟩
  rcases hspec.2.2.2 with ⟨c, hc, hm, heq⟩ | ⟨_, heq⟩
  · exact Or.inl ⟨c, hc, hm, by rw [heq], by rw [heq]⟩
  · have hframe := matchTiers_frame env db s ((pyGetId s).getD "") (vikiTitleOf s)
    rw [heq]
    exact Or.inr ⟨hframe.2.1, hframe.1⟩

theorem cache_write_per_call_witness :
    (matchRun envExact [] showV).reads = [(pyGetId showV).getD ""] ∧
    dbGetResult (matchRun envExact [] showV).db ((pyGetId showV).getD "")
      = some (matchRun envExact [] showV).result :=
  ⟨(cache_write_per_call envExact [] showV (by with_unfolding_all decide)).1,
    (cache_write_per_call envExact [] showV (by with_unfolding_all decide)).2.1⟩

theorem scanOne_none (normQ normQwo : String) :
    ∀ items : List SearchItem,
      (∀ it ∈ items, pyNorm it.show_.title ≠ normQ ∧
        pyNormNoArticle it.show_.title ≠ normQwo) →
      scanOne normQ normQwo items none = (none, none) := by
  intro items
  induction items with
  | nil => intro _; rfl
  | cons it rest ih =>
    intro h
    unfold scanOne
    dsimp only
    rw [if_neg (by simpa [pyNorm] using (h it (by simp)).1)]
    have hart : (if (none : Option SearchItem).isNone &&
        decide (normNoArticleStr ((it.show_.title).getD "") = normQwo)
        then some it else none) = none := by
      rw [if_neg]
      simp only [Option.isNone_none, Bool.true_and, decide_eq_true_eq]
      simpa [pyNormNoArticle] using (h it (by simp)).2
    rw [hart]
    exact ih (fun x hx => h x (by simp [hx]))

theorem finishExact_first (env : Env) (vid : Option String)
    (title nq nqwo sq sqwo : String) (it : SearchItem)
    (h1 : pyNorm it.show_.title ≠ nq)
    (h2 : ((it.show_.idSlug).getD "").startsWith sq = false)
    (h3 : pyNormNoArticle it.show_.title ≠ nqwo)
    (h4 : ((it.show_.idSlug).getD "").startsWith sqwo = false) :
    finishExact env vid title nq nqwo sq sqwo it false =
      { viki_id := vid, viki_title := title
        trakt_id := it.show_.idTrakt, trakt_slug := it.show_.idSlug
        trakt_title := it.show_.title, match_confidence := 0.8
        match_method := some "exact_trakt_first", matched_at := some env.now } := by
  unfold finishExact
  dsimp only
  rw [if_neg (by simp [h1, h2]), if_neg (by simp [h3, h4])]

theorem chooseExact_none (normQ normQwo slugQ slugQwo : String)
    (results : List SearchItem)
    (hscan : ∀ it ∈ results, pyNorm it.show_.title ≠ normQ ∧
      pyNormNoArticle it.show_.title ≠ normQwo)
    (hs1 : ∀ it ∈ results, ((it.show_.idSlug).getD "").startsWith slugQ = false)
    (hs2 : ∀ it ∈ results, ((it.show_.idSlug).getD "").startsWith slugQwo = false) :
    chooseExact normQ normQwo slugQ slugQwo results = (none, false) := by
  unfold chooseExact
  rw [scanOne_none normQ normQwo results hscan]
  have hfind1 : results.find?
      (fun it => ((it.show_.idSlug).getD "").startsWith slugQ) = none := by
    rw [List.find?_eq_none]
    intro it hit
    simp [hs1 it hit]
  have hfind2 : results.find?
      (fun it => ((it.show_.idSlug).getD "").startsWith slugQwo) = none := by
    rw [List.find?_eq_none]
    intro it hit
    simp [hs2 it hit]
  simp only [hfind1, Option.isSome_none, Bool.false_eq_true, if_false]
  split
  · rw [hfind2]
  · rfl

/-- C6: when the Trakt search returns a non-empty list in which no
candidate matches by normalized title, by article-stripped normalized
title, or by slug starts-with (with or without the leading article), and
every direct slug probe misses, the exact-search tier returns the *first*
search result with confidence exactly 0.8 and method
`"exact_trakt_first"` — so the first-result fallback never scores above
0.8. -/
theorem first_result_fallback (env : Env) (s : VikiShow) (t : String)
    (tc : TraktO) (htc : env.trakt = some tc)
    (hne : tc.searchShows t ≠ [])
    (hno : ∀ it ∈ tc.searchShows t,
      pyNorm it.show_.title ≠ normStr t ∧
      pyNormNoArticle it.show_.title ≠ normNoArticleStr t ∧
      ((it.show_.idSlug).getD "").startsWith (slugStr t) = false ∧
      ((it.show_.idSlug).getD "").startsWith
        (slugStr (String.mk (stripArticleRaw t.data))) = false)
    (hprobes : ∀ p ∈ [slugStr t, slugStr t ++ "-2025", slugStr t ++ "-2024",
      slugStr t ++ "-2026"], tc.getShowBySlug p = none) :
    tierExactTrakt env s t =
      { viki_id := pyGetId s, viki_title := t
        trakt_id := ((tc.searchShows t).head?.getD {}).show_.idTrakt
        trakt_slug := ((tc.searchShows t).head?.getD {}).show_.idSlug
        trakt_title := ((tc.searchShows t).head?.getD {}).show_.title
        match_confidence := 0.8
        match_method := some "exact_trakt_first"
        matched_at := some env.now } := by
  have hhead : (tc.searchShows t).head?.getD {} ∈ tc.searchShows t := by
    cases hres : tc.searchShows t with
    | nil => exact absurd hres hne
    | cons a rest => simp
  unfold tierExactTrakt
  rw [htc]
  dsimp only
  rw [if_neg (by simpa [List.isEmpty_iff] using hne)]
  rw [chooseExact_none (normStr t) (normNoArticleStr t) (slugStr t)
    (slugStr (String.mk (stripArticleRaw t.data))) (tc.searchShows t)
    (fun it hit => ⟨(hno it hit).1, (hno it hit).2.1⟩)
    (fun it hit => (hno it hit).2.2.1)
    (fun it hit => (hno it hit).2.2.2)]
  dsimp only
  have hsome : ([slugStr t, slugStr t ++ "-2025", slugStr t ++ "-2024",
      slugStr t ++ "-2026"]).findSome? (fun p => tc.getShowBySlug p) = none := by
    rw [List.findSome?_eq_none_iff]
    intro p hp
    exact hprobes p hp
  rw [hsome]
  exact finishExact_first env (pyGetId s) t (normStr t) (normNoArticleStr t)
    (slugStr t) (slugStr (String.mk (stripArticleRaw t.data)))
    ((tc.searchShows t).head?.getD {})
    (hno _ hhead).1 (hno _ hhead).2.2.1 (hno _ hhead).2.1 (hno _ hhead).2.2.2

/-- Trakt client returning a single unrelated search result and no slug
hits. -/
def tcMiss : TraktO :=
  { searchShows := fun _ =>
      [{ show_ := { title := some "Zzz", idTrakt := some 3, idSlug := some "zzz" } }]
    getShowBySlug := fun _ => none
    getShowByTvdb := fun _ => none }

/-- Environment wrapping `tcMiss`. -/
def envMiss : Env := { trakt := some tcMiss }

theorem first_result_fallback_witness :
    tierExactTrakt envMiss showV "Abc" =
      { viki_id := pyGetId showV, viki_title := "Abc"
        trakt_id := ((tcMiss.searchShows "Abc").head?.getD {}).show_.idTrakt
        trakt_slug := ((tcMiss.searchShows "Abc").head?.getD {}).show_.idSlug
        trakt_title := ((tcMiss.searchShows "Abc").head?.getD {}).show_.title
        match_confidence := 0.8
        match_method := some "exact_trakt_first"
        matched_at := some envMiss.now } :=
  first_result_fallback envMiss showV "Abc" tcMiss rfl
    (by with_unfolding_all decide)
    (by with_unfolding_all decide)
    (by with_unfolding_all decide)
end VikiTrakt
